import Mathlib

/-!
Shallow embedding of the decision core of the skill-gap analysis service:
credential resolution and quota-fallback retry from
`src/app/services/gemini_service.py`, and the freshness evaluator
`check_if_analysis_needed` from `src/app/services/data_service.py`.

External HTTP responses are modelled as environment fields (status code plus
decoded JSON rows); a request that raises is modelled as `Except.error ()`.
Python string truthiness, substring tests and the `datetime.fromisoformat`
collaborator are modelled explicitly below.
-/

/-- Python truthiness of a `str`: falsy iff empty. -/
def pyStrTruthy (s : String) : Bool := !s.isEmpty

/-- Python truthiness of an `Optional[str]`: `None` and `""` are falsy. -/
def pyOptStrTruthy : Option String → Bool
  | none => false
  | some s => pyStrTruthy s

/-- Is the first list a contiguous infix of the second? -/
def listIsInfixOf [BEq α] : List α → List α → Bool
  | pat, [] => pat.isEmpty
  | pat, a :: rest => List.isPrefixOf pat (a :: rest) || listIsInfixOf pat rest

/-- Python `pat in hay` substring test. -/
def pyInStr (pat hay : String) : Bool := listIsInfixOf pat.toList hay.toList

/-- Python `str.lower()` (ASCII case folding suffices for the messages involved). -/
def pyLower (s : String) : String := String.mk (s.data.map Char.toLower)

/-- gemini_service.py line 254: `"quota" in error_msg.lower() or "limit" in error_msg.lower()`. -/
def isQuotaError (error_msg : String) : Bool :=
  pyInStr "quota" (pyLower error_msg) || pyInStr "limit" (pyLower error_msg)

/-- The process configuration (app/core/config.py). `GEMINI_API_KEY : str = ""`,
so absence is the empty string. -/
structure Settings where
  GEMINI_API_KEY : String
  GEMINI_MODEL : String
deriving DecidableEq, Repr

/-- A decoded row of the `user_api_keys` query: the `api_key_encrypted` field as
`dict.get` sees it (`none` = key absent or JSON null). -/
structure KeyRow where
  api_key_encrypted : Option String
deriving DecidableEq, Repr

/-- An HTTP response as the code consumes it: status code and decoded JSON rows. -/
structure HttpResponse (ρ : Type) where
  status_code : Nat
  json : List ρ
deriving DecidableEq, Repr

/-- Credential scope: the `source` component of `get_api_key_for_user`. -/
inductive Scope
  | user
  | system
deriving DecidableEq, Repr, BEq

/-- The exception kinds the embedded functions raise:
`valueError` models `raise ValueError(...)` (gemini_service.py line 53) and
`genericException` models `raise Exception(...)` (gemini_service.py line 265). -/
inductive PyError
  | valueError (msg : String)
  | genericException (msg : String)
deriving DecidableEq, Repr

/-- Environment of the gemini service: process settings, the credential-store
response for this user, and a model of which strings `json.loads` accepts. -/
structure GeminiEnv where
  settings : Settings
  userKeyResp : Except Unit (HttpResponse KeyRow)
  jsonParses : String → Bool

/-- gemini_service.py lines 19-36, `get_user_gemini_key`: returns the first
row's `api_key_encrypted` when the query succeeds with status 200 and a
non-empty list; any raised exception is caught and yields `None`. -/
def get_user_gemini_key (resp : Except Unit (HttpResponse KeyRow)) : Option String :=
  match resp with
  | .error _ => none
  | .ok r =>
    if r.status_code == 200 && !r.json.isEmpty then
      match r.json with
      | row :: _ => row.api_key_encrypted
      | [] => none
    else none

/-- The message of the `ValueError` raised at gemini_service.py line 53. -/
def noApiKeyMsg : String :=
  "No API key available. Please add your Gemini API key in settings."

/-- gemini_service.py lines 39-53, `get_api_key_for_user`: prefer a truthy user
key (scope `user`), else a truthy `settings.GEMINI_API_KEY` (scope `system`),
else raise `ValueError`. -/
def get_api_key_for_user (env : GeminiEnv) : Except PyError (String × Scope) :=
  let user_key := get_user_gemini_key env.userKeyResp
  if pyOptStrTruthy user_key then
    .ok (user_key.getD "", Scope.user)
  else if pyStrTruthy env.settings.GEMINI_API_KEY then
    .ok (env.settings.GEMINI_API_KEY, Scope.system)
  else
    .error (.valueError noApiKeyMsg)

/-- Outcome of one `model.generate_content` invocation: the response text, or a
raised exception with message `str(e)`. -/
inductive GenOutcome
  | success (text : String)
  | failure (msg : String)
deriving DecidableEq, Repr

/-- The analysis dict returned by `analyze_skill_gap`: the model text (parsed
body, or `raw_analysis` with `parse_error` set when `json.loads` fails), plus
the `api_key_source` and `model_used` entries added at lines 245-246. -/
structure AnalysisDict where
  text : String
  parse_error : Bool
  api_key_source : Scope
  model_used : String
deriving DecidableEq, Repr

/-- Result of a bounded run of `analyze_skill_gap`. `keysUsed` lists, in order,
the API key configured for each `generate_content` invocation performed.
`outOfFuel` means the recursion of the source exceeded the given depth bound
(the source itself has no bound). -/
inductive RunResult
  | ok (a : AnalysisDict) (keysUsed : List String)
  | err (e : PyError) (keysUsed : List String)
  | outOfFuel (keysUsed : List String)
deriving DecidableEq, Repr

/-- gemini_service.py lines 56-265, `analyze_skill_gap`, with the wrapped AI
operation abstracted as `op idx key`: the outcome of the `generate_content`
call number `idx` (0-based) when the key configured by line 75 is `key`.
`fuel` bounds the recursion depth of the source's retry at line 260.
Note that the recursive call re-runs `get_api_key_for_user` (line 72) and
re-configures `genai` with the key it resolves (line 75), so the
`genai.configure(settings.GEMINI_API_KEY)` at line 258 is overwritten before
the next `generate_content` call. -/
def analyzeGo (env : GeminiEnv) (op : Nat → String → GenOutcome) :
    Nat → List String → RunResult
  | 0, keys => .outOfFuel keys
  | fuel + 1, keys =>
    match get_api_key_for_user env with
    | .error e => .err e keys
    | .ok (api_key, key_source) =>
      match op keys.length api_key with
      | .success text =>
        .ok { text := text
              parse_error := !env.jsonParses text
              api_key_source := key_source
              model_used := env.settings.GEMINI_MODEL } (keys ++ [api_key])
      | .failure msg =>
        if isQuotaError msg && key_source == Scope.user
            && pyStrTruthy env.settings.GEMINI_API_KEY then
          analyzeGo env op fuel (keys ++ [api_key])
        else
          .err (.genericException ("Gemini analysis failed: " ++ msg)) (keys ++ [api_key])

/-- Entry point: `analyze_skill_gap` run with a recursion-depth bound. -/
def analyze_skill_gap (env : GeminiEnv) (op : Nat → String → GenOutcome)
    (fuel : Nat) : RunResult :=
  analyzeGo env op fuel []

/-! ### data_service.py: the freshness evaluator `check_if_analysis_needed` -/

/-- A JSON field value as the Python code observes it: the key may be absent,
null, a string, or some other JSON value (carrying its Python truthiness). -/
inductive JVal
  | missing
  | null
  | str (s : String)
  | other (truthy : Bool)
deriving DecidableEq, Repr

/-- A decoded row of the `skill_gap_analyses` query (field `analyzed_at`). -/
structure AnalysisRow where
  analyzed_at : JVal
deriving DecidableEq, Repr

/-- A decoded row of the `profiles` query (field `resume_uploaded_at`). -/
structure ProfileRow where
  resume_uploaded_at : JVal
deriving DecidableEq, Repr

/-- A decoded row of the `github_connections` query (field `last_sync_at`). -/
structure GithubRow where
  last_sync_at : JVal
deriving DecidableEq, Repr

/-- Environment of the freshness evaluator: an abstract model of
`datetime.fromisoformat` (`none` = the parse raises `ValueError`; parsed
datetimes are represented as integers ordered like the timeline), and the
three HTTP lookups (`Except.error ()` = the request raised). -/
structure DataEnv where
  fromisoformat : String → Option Int
  analysisResp : Except Unit (HttpResponse AnalysisRow)
  profileResp : Except Unit (HttpResponse ProfileRow)
  githubResp : Except Unit (HttpResponse GithubRow)

/-- Python `s.replace('Z', '+00:00')`: since the pattern is a single
character, replacing every occurrence is per-character expansion. -/
def replaceZ (s : String) : String :=
  String.mk (s.data.flatMap fun c => if c == 'Z' then "+00:00".data else [c])

/-- data_service.py lines 235, 245, 256:
`datetime.fromisoformat(s.replace('Z', '+00:00'))`. -/
def parseTs (env : DataEnv) (s : String) : Option Int :=
  env.fromisoformat (replaceZ s)

/-- data_service.py lines 225-227: `last_analysis = None`, overwritten with
`resp.json()[0]['analyzed_at']` when status is 200 and the list is non-empty.
`none` models the `KeyError` raised by the bracket access on a missing key
(caught by the outer handler, hence `True`). -/
def lastAnalysisVal (resp : HttpResponse AnalysisRow) : Option JVal :=
  if resp.status_code == 200 && !resp.json.isEmpty then
    match resp.json with
    | row :: _ =>
      match row.analyzed_at with
      | .missing => none
      | v => some v
    | [] => some JVal.null
  else some JVal.null

/-- data_service.py lines 229-237: the truthiness, `isinstance` and parse
checks on `last_analysis`. `none` means `check_if_analysis_needed` returns
`True` before reaching step 2 (no record; falsy or non-string `analyzed_at`;
raised `KeyError`; unparseable timestamp). -/
def parseLastAnalysis (env : DataEnv) : Option JVal → Option Int
  | none => none
  | some JVal.null => none
  | some JVal.missing => none
  | some (JVal.other _) => none
  | some (JVal.str s) =>
    if s.isEmpty then none
    else parseTs env s

/-- data_service.py lines 222-237, step 1 of `check_if_analysis_needed`:
produce the parsed last-analysis time, or `none` when the function returns
`True` before reaching step 2. -/
def lastAnalysisStep (env : DataEnv) : Option Int :=
  match env.analysisResp with
  | .error _ => none
  | .ok resp => parseLastAnalysis env (lastAnalysisVal resp)

/-- Outcome of one change-signal block (data_service.py lines 242-248 and
253-259): an exception escaped the block (caught by the outer handler),
a strictly-later timestamp triggered `return True`, or fall through. -/
inductive SignalOutcome
  | raised
  | trigger
  | noTrigger
deriving DecidableEq, Repr

/-- The signal value a block observes: `row[0].get(field)` when the lookup has
status 200 and a non-empty list, else no value (the block is skipped, which
behaves like a null signal). -/
def signalField {ρ : Type} (field : ρ → JVal) (resp : HttpResponse ρ) : JVal :=
  if resp.status_code == 200 && !resp.json.isEmpty then
    match resp.json with
    | row :: _ => field row
    | [] => JVal.null
  else JVal.null

/-- One change-signal check against the last analysis time `t`: a falsy value
(`None`, `""`, falsy non-string) is skipped; a truthy non-string raises on
`.replace`; a non-empty string is parsed (raising on failure) and triggers
exactly when strictly later than `t`. -/
def signalStep (env : DataEnv) (v : JVal) (t : Int) : SignalOutcome :=
  match v with
  | .missing => .noTrigger
  | .null => .noTrigger
  | .other b => if b then .raised else .noTrigger
  | .str s =>
    if s.isEmpty then .noTrigger
    else
      match parseTs env s with
      | none => .raised
      | some ts => if ts > t then .trigger else .noTrigger

/-- Combine a change-signal outcome with the continuation of the function:
`raised` is caught by the outer handler (`True`), `trigger` is `return True`,
`noTrigger` falls through to `next`. -/
def outcomeOr (o : SignalOutcome) (next : Bool) : Bool :=
  match o with
  | .raised => true
  | .trigger => true
  | .noTrigger => next

/-- data_service.py lines 250-261, step 3 of `check_if_analysis_needed`: the
github-sync block followed by `return False`. A raised request is caught by
the outer handler (`True`). -/
def githubCheck (env : DataEnv) (t : Int) : Bool :=
  match env.githubResp with
  | .error _ => true
  | .ok g => outcomeOr (signalStep env (signalField GithubRow.last_sync_at g) t) false

/-- data_service.py lines 239-248, step 2 of `check_if_analysis_needed`: the
resume-upload block, falling through to step 3. -/
def profileCheck (env : DataEnv) (t : Int) : Bool :=
  match env.profileResp with
  | .error _ => true
  | .ok p =>
    outcomeOr (signalStep env (signalField ProfileRow.resume_uploaded_at p) t)
      (githubCheck env t)

/-- data_service.py lines 213-264, `check_if_analysis_needed`: `true` when the
user was never analyzed, a change signal is strictly later than the last
analysis, or anything raises (the `except` clause at line 262 returns `True`);
`false` only when a parsed last-analysis time exists and neither signal
triggers. -/
def check_if_analysis_needed (env : DataEnv) : Bool :=
  match lastAnalysisStep env with
  | none => true
  | some t => profileCheck env t

/-! ### Concrete environments used by witnesses and counterexamples -/

/-- Settings with a non-empty system fallback key. -/
def settingsSK : Settings := { GEMINI_API_KEY := "SK", GEMINI_MODEL := "gemini-1.5-pro" }

/-- A user with an active user key `UK`; system fallback `SK` also configured. -/
def envUserKey : GeminiEnv :=
  { settings := settingsSK
    userKeyResp := .ok { status_code := 200, json := [{ api_key_encrypted := some "UK" }] }
    jsonParses := fun _ => true }

/-- A user with no user key; system fallback `SK` configured. -/
def envSystemOnly : GeminiEnv :=
  { settings := settingsSK
    userKeyResp := .ok { status_code := 200, json := [] }
    jsonParses := fun _ => true }

/-- A user with no user key and an empty system key. -/
def envNoKeys : GeminiEnv :=
  { settings := { GEMINI_API_KEY := "", GEMINI_MODEL := "gemini-1.5-pro" }
    userKeyResp := .ok { status_code := 200, json := [] }
    jsonParses := fun _ => true }

/-- A user with no user key and a whitespace-only (blank but non-empty) system key. -/
def envBlankSystem : GeminiEnv :=
  { settings := { GEMINI_API_KEY := " ", GEMINI_MODEL := "gemini-1.5-pro" }
    userKeyResp := .ok { status_code := 200, json := [] }
    jsonParses := fun _ => true }

/-- An operation that fails with a quota error on its first invocation and
succeeds on any later invocation, whatever key is configured. -/
def opQuotaThenOk : Nat → String → GenOutcome :=
  fun idx _ => if idx == 0 then .failure "429 quota exceeded" else .success "ok"

/-- An operation that fails with a quota error on every invocation. -/
def opQuotaAlways : Nat → String → GenOutcome :=
  fun _ _ => .failure "quota exceeded"

/-- An operation that fails with a non-quota error on every invocation. -/
def opBoom : Nat → String → GenOutcome :=
  fun _ _ => .failure "boom"

/-- A concrete model of `datetime.fromisoformat` covering the timestamps used
by the concrete environments below; every other string raises. -/
def isoTable : String → Option Int := fun s =>
  if s == "2024-01-01T00:00:00+00:00" then some 100
  else if s == "2024-01-02T00:00:00+00:00" then some 200
  else none

/-- A user never analyzed (`analyzed_at` null) whose resume signal would
trigger if it were consulted. -/
def envNeverAnalyzed : DataEnv :=
  { fromisoformat := isoTable
    analysisResp := .ok { status_code := 200, json := [{ analyzed_at := JVal.null }] }
    profileResp := .ok { status_code := 200
                         json := [{ resume_uploaded_at := JVal.str "2024-01-02T00:00:00Z" }] }
    githubResp := .ok { status_code := 200
                        json := [{ last_sync_at := JVal.str "2024-01-02T00:00:00Z" }] } }

/-- A user whose resume-upload timestamp exactly equals the last-analysis
timestamp and whose sync timestamp is null. -/
def envTie : DataEnv :=
  { fromisoformat := isoTable
    analysisResp := .ok { status_code := 200
                          json := [{ analyzed_at := JVal.str "2024-01-01T00:00:00Z" }] }
    profileResp := .ok { status_code := 200
                         json := [{ resume_uploaded_at := JVal.str "2024-01-01T00:00:00Z" }] }
    githubResp := .ok { status_code := 200, json := [{ last_sync_at := JVal.null }] } }

/-- The last-analysis lookup raises (collaborator unreachable). -/
def envLookupRaises : DataEnv :=
  { fromisoformat := isoTable
    analysisResp := .error ()
    profileResp := .ok { status_code := 200, json := [{ resume_uploaded_at := JVal.null }] }
    githubResp := .ok { status_code := 200, json := [{ last_sync_at := JVal.null }] } }

/-- An analyzed user whose resume lookup returns HTTP 404 and whose github
lookup returns an empty list: no signal, no exception. -/
def envNoSignals : DataEnv :=
  { fromisoformat := isoTable
    analysisResp := .ok { status_code := 200
                          json := [{ analyzed_at := JVal.str "2024-01-01T00:00:00Z" }] }
    profileResp := .ok { status_code := 404
                         json := [{ resume_uploaded_at := JVal.str "2024-01-02T00:00:00Z" }] }
    githubResp := .ok { status_code := 200, json := [] } }

/-! ### Theorems about the credential resolver and the quota fallback -/

/-- Helper: with an active user key and a persistent quota failure, each fuel
step of `analyze_skill_gap` re-resolves the user key, invokes the operation
with it once more, and recurses: the recursion never reaches a terminal
state, consuming all fuel. -/
theorem analyzeGo_quotaAlways_unbounded (fuel : Nat) (keys : List String) :
    analyzeGo envUserKey opQuotaAlways fuel keys =
      .outOfFuel (keys ++ List.replicate fuel "UK") := by
  induction fuel generalizing keys with
  | zero => simp [analyzeGo]
  | succ n ih =>
    have hstep : analyzeGo envUserKey opQuotaAlways (n + 1) keys =
        analyzeGo envUserKey opQuotaAlways n (keys ++ ["UK"]) := rfl
    rw [hstep, ih]
    simp [List.replicate_succ]

/-- C1: at the claim's scenario — an active user credential `UK`, a non-empty
system fallback `SK`, and an operation that fails with a quota error on its
first invocation and succeeds on the second — the code does invoke the
operation exactly twice, but the retry re-resolves the credential, so the
second invocation is configured with the user key `UK` (not the system key)
and the successful result is tagged `api_key_source = user`, not `system`. -/
theorem C1_retry_reuses_user_key :
    analyze_skill_gap envUserKey opQuotaThenOk 5 =
      .ok { text := "ok", parse_error := false, api_key_source := Scope.user
            model_used := "gemini-1.5-pro" } ["UK", "UK"] := by decide

/-- C2: with an active user credential, a configured system fallback, and an
operation that fails with a quota error on every invocation, the recursion of
`analyze_skill_gap` never terminates: at recursion depth 9 it has already
invoked the operation 9 times (the claim allows at most 2) and has reached no
terminal state. -/
theorem C2_persistent_quota_is_unbounded :
    analyze_skill_gap envUserKey opQuotaAlways 9 =
      .outOfFuel (List.replicate 9 "UK") := by decide

/-- C3: when the credential resolves and the operation's first invocation
fails with a non-quota error (the code's classifier: the lowercased message
contains neither "quota" nor "limit"), the failure is surfaced at once and
the operation was invoked exactly once, whatever the credential scope and the
remaining fuel. -/
theorem C3_nonquota_failure_no_retry (env : GeminiEnv) (op : Nat → String → GenOutcome)
    (fuel : Nat) (k : String) (sc : Scope) (msg : String)
    (hres : get_api_key_for_user env = .ok (k, sc))
    (hop : op 0 k = .failure msg)
    (hq : isQuotaError msg = false) :
    analyze_skill_gap env op (fuel + 1) =
      .err (.genericException ("Gemini analysis failed: " ++ msg)) [k] := by
  unfold analyze_skill_gap analyzeGo
  rw [hres]
  simp [hop, hq]

/-- C3 witness: the non-quota failure "boom" is surfaced after a single
invocation for the user-key environment. -/
theorem C3_witness :
    analyze_skill_gap envUserKey opBoom 1 =
      .err (.genericException "Gemini analysis failed: boom") ["UK"] :=
  C3_nonquota_failure_no_retry envUserKey opBoom 0 "UK" Scope.user "boom" rfl rfl (by decide)

/-- C7: whenever the user-credential lookup yields a non-empty key (the query
itself filters on `is_active=eq.true`), the resolver returns exactly that key
with scope `user`, regardless of the system credential; and scope `system` is
returned only when the user lookup yields no truthy credential. -/
theorem C7_user_key_preferred (env : GeminiEnv) :
    (∀ k, get_user_gemini_key env.userKeyResp = some k → k ≠ "" →
      get_api_key_for_user env = .ok (k, Scope.user)) ∧
    (∀ v, get_api_key_for_user env = .ok (v, Scope.system) →
      pyOptStrTruthy (get_user_gemini_key env.userKeyResp) = false) := by
  constructor
  · intro k hk hne
    have hkE : k.isEmpty = false := by
      cases h : k.isEmpty
      · rfl
      · exact absurd ((String.isEmpty_iff k).mp h) hne
    simp [get_api_key_for_user, hk, pyOptStrTruthy, pyStrTruthy, hkE]
  · intro v hv
    cases h : pyOptStrTruthy (get_user_gemini_key env.userKeyResp)
    · rfl
    · exfalso
      simp only [get_api_key_for_user, h, if_true] at hv
      by_cases hs : pyStrTruthy env.settings.GEMINI_API_KEY = true <;> simp_all

/-- C7 witness: user key `UK` is preferred although system key `SK` exists. -/
theorem C7_witness : get_api_key_for_user envUserKey = .ok ("UK", Scope.user) :=
  (C7_user_key_preferred envUserKey).1 "UK" rfl (by decide)

/-- C8 counterexample: with no user credential and the system credential set
to the whitespace-only string " " — blank, but non-empty and hence
Python-truthy — the resolver does not fail: it returns the blank system
credential with scope `system`. -/
theorem C8_counterexample :
    (" ").data = [' '] ∧ (" ") ≠ "" ∧
    get_api_key_for_user envBlankSystem = .ok (" ", Scope.system) :=
  ⟨rfl, by decide, rfl⟩

/-- C8 amended: with no truthy user credential, the resolver raises the
no-credential `ValueError` exactly when the system credential is absent or
empty (the empty string); a whitespace-only system credential is truthy and
is returned as a fallback. -/
theorem C8_empty_system_credential_fails (env : GeminiEnv)
    (hu : pyOptStrTruthy (get_user_gemini_key env.userKeyResp) = false)
    (hs : env.settings.GEMINI_API_KEY = "") :
    get_api_key_for_user env = .error (.valueError noApiKeyMsg) := by
  simp [get_api_key_for_user, hu, hs, pyStrTruthy]
  decide

/-- C8 witness: both credentials empty yields the `ValueError`. -/
theorem C8_witness : get_api_key_for_user envNoKeys = .error (.valueError noApiKeyMsg) :=
  C8_empty_system_credential_fails envNoKeys rfl rfl

/-- C9 counterexample: a quota failure that cannot be retried (system scope)
and a non-quota upstream failure are surfaced as the same exception
constructor — the generic wrapped `Exception` — differing only in message
text, so the two failure kinds are not distinguishable by exception kind. -/
theorem C9_counterexample :
    analyze_skill_gap envSystemOnly opQuotaAlways 5 =
      .err (.genericException "Gemini analysis failed: quota exceeded") ["SK"] ∧
    analyze_skill_gap envSystemOnly opBoom 5 =
      .err (.genericException "Gemini analysis failed: boom") ["SK"] :=
  ⟨by decide, by decide⟩

/-- C9 amended: the missing-credential failure is a distinct `ValueError`
kind, but every operation failure that is not retried — quota failures at
system scope and non-quota failures alike — is surfaced as the single generic
`Exception` kind with message "Gemini analysis failed: " plus the original
message, leaving those causes distinguishable only by message text. -/
theorem C9_error_kinds (env : GeminiEnv) (op : Nat → String → GenOutcome)
    (fuel : Nat) (k : String) (sc : Scope) (msg : String) :
    (get_api_key_for_user env = .ok (k, sc) → op 0 k = .failure msg →
      (isQuotaError msg && sc == Scope.user
        && pyStrTruthy env.settings.GEMINI_API_KEY) = false →
      analyze_skill_gap env op (fuel + 1) =
        .err (.genericException ("Gemini analysis failed: " ++ msg)) [k]) ∧
    (pyOptStrTruthy (get_user_gemini_key env.userKeyResp) = false →
      pyStrTruthy env.settings.GEMINI_API_KEY = false →
      analyze_skill_gap env op (fuel + 1) = .err (.valueError noApiKeyMsg) []) := by
  constructor
  · intro hres hop hguard
    unfold analyze_skill_gap analyzeGo
    rw [hres]
    simp [hop, hguard]
  · intro hu hs
    have hres : get_api_key_for_user env = .error (.valueError noApiKeyMsg) := by
      simp [get_api_key_for_user, hu, hs]
    unfold analyze_skill_gap analyzeGo
    rw [hres]

/-- C9 witness: the quota failure at system scope is wrapped in the generic
exception kind. -/
theorem C9_witness :
    analyze_skill_gap envSystemOnly opQuotaAlways 1 =
      .err (.genericException "Gemini analysis failed: quota exceeded") ["SK"] :=
  (C9_error_kinds envSystemOnly opQuotaAlways 0 "SK" Scope.system "quota exceeded").1
    rfl rfl (by decide)

/-! ### Theorems about the freshness evaluator -/

/-- Helper: step 1 yielding no time makes the evaluator return `true`. -/
theorem check_of_none {env : DataEnv} (h : lastAnalysisStep env = none) :
    check_if_analysis_needed env = true := by
  simp only [check_if_analysis_needed, h]

/-- Helper: step 1 yielding `t` hands control to the resume block. -/
theorem check_of_some {env : DataEnv} {t : Int} (h : lastAnalysisStep env = some t) :
    check_if_analysis_needed env = profileCheck env t := by
  simp only [check_if_analysis_needed, h]

/-- Helper: a raised profile request is caught, returning `true`. -/
theorem profileCheck_of_error {env : DataEnv} {t : Int} {e : Unit}
    (h : env.profileResp = .error e) : profileCheck env t = true := by
  simp only [profileCheck, h]

/-- Helper: a successful profile request reduces to the signal check. -/
theorem profileCheck_of_ok {env : DataEnv} {t : Int} {p : HttpResponse ProfileRow}
    (h : env.profileResp = .ok p) :
    profileCheck env t =
      outcomeOr (signalStep env (signalField ProfileRow.resume_uploaded_at p) t)
        (githubCheck env t) := by
  simp only [profileCheck, h]

/-- Helper: a raised github request is caught, returning `true`. -/
theorem githubCheck_of_error {env : DataEnv} {t : Int} {e : Unit}
    (h : env.githubResp = .error e) : githubCheck env t = true := by
  simp only [githubCheck, h]

/-- Helper: a successful github request reduces to the signal check. -/
theorem githubCheck_of_ok {env : DataEnv} {t : Int} {g : HttpResponse GithubRow}
    (h : env.githubResp = .ok g) :
    githubCheck env t =
      outcomeOr (signalStep env (signalField GithubRow.last_sync_at g) t) false := by
  simp only [githubCheck, h]

/-- The last-analysis lookup completed without raising and shows no usable
record: non-success status, empty result list, or a null `analyzed_at`. -/
def analysisLookupAbsent (r : HttpResponse AnalysisRow) : Prop :=
  r.status_code ≠ 200 ∨ r.json = [] ∨
    ∃ row rest, r.json = row :: rest ∧ row.analyzed_at = JVal.null

/-- Helper: an absent last-analysis record leaves `last_analysis = None`. -/
theorem lastAnalysisVal_of_absent {r : HttpResponse AnalysisRow}
    (h : analysisLookupAbsent r) : lastAnalysisVal r = some JVal.null := by
  rcases h with h | h | ⟨row, rest, hjson, hval⟩
  · simp [lastAnalysisVal, h]
  · simp [lastAnalysisVal, h]
  · by_cases hs : r.status_code = 200 <;> simp [lastAnalysisVal, hs, hjson, hval]

/-- Helper: a present string `analyzed_at` is observed as that string. -/
theorem lastAnalysisVal_of_str {r : HttpResponse AnalysisRow} {row : AnalysisRow}
    {rest : List AnalysisRow} {s : String} (hst : r.status_code = 200)
    (hjson : r.json = row :: rest) (hval : row.analyzed_at = JVal.str s) :
    lastAnalysisVal r = some (JVal.str s) := by
  simp [lastAnalysisVal, hst, hjson, hval]

/-- The analysis-history lookup succeeded with a non-empty string timestamp
that the datetime parser accepts, yielding the value `t`. -/
def lastAnalysisParses (env : DataEnv) (t : Int) : Prop :=
  ∃ r row rest s, env.analysisResp = .ok r ∧ r.status_code = 200 ∧
    r.json = row :: rest ∧ row.analyzed_at = JVal.str s ∧ s.isEmpty = false ∧
    parseTs env s = some t

/-- Helper: a parsed last-analysis record carries step 1 through to `t`. -/
theorem lastAnalysisStep_of_parses {env : DataEnv} {t : Int}
    (h : lastAnalysisParses env t) : lastAnalysisStep env = some t := by
  obtain ⟨r, row, rest, s, hresp, hst, hjson, hval, hne, hp⟩ := h
  simp only [lastAnalysisStep, hresp]
  rw [lastAnalysisVal_of_str hst hjson hval]
  simp [parseLastAnalysis, hne, hp]

/-- C4: when the last-analysis lookup returns absent — non-success status,
empty list, or null `analyzed_at` — the evaluator returns `true`, whatever the
resume and sync lookups hold (both are universally quantified through `env`). -/
theorem C4_no_record_returns_true (env : DataEnv) (r : HttpResponse AnalysisRow)
    (hresp : env.analysisResp = .ok r) (habs : analysisLookupAbsent r) :
    check_if_analysis_needed env = true := by
  apply check_of_none
  simp only [lastAnalysisStep, hresp]
  rw [lastAnalysisVal_of_absent habs]
  rfl

/-- C4 witness: a never-analyzed user is flagged even though both change
signals are present and later than any analysis. -/
theorem C4_witness : check_if_analysis_needed envNeverAnalyzed = true :=
  C4_no_record_returns_true envNeverAnalyzed _ rfl
    (Or.inr (Or.inr ⟨_, _, rfl, rfl⟩))

/-- The change signal a block observes is absent (missing key, null, empty
string) or a string parsing to exactly the last-analysis time `t`. -/
def signalAbsentOrEqual (env : DataEnv) (v : JVal) (t : Int) : Prop :=
  v = JVal.missing ∨ v = JVal.null ∨ v = JVal.str "" ∨
    ∃ s, v = JVal.str s ∧ parseTs env s = some t

/-- Helper: an absent-or-equal signal never triggers re-analysis. -/
theorem signalStep_of_absentOrEqual {env : DataEnv} {v : JVal} {t : Int}
    (h : signalAbsentOrEqual env v t) : signalStep env v t = SignalOutcome.noTrigger := by
  rcases h with h | h | h | ⟨s, hv, hp⟩
  · subst h; rfl
  · subst h; rfl
  · subst h; rfl
  · subst hv
    by_cases he : s.isEmpty <;> simp [signalStep, he, hp]

/-- C5: the timestamp comparisons are strict: when the last analysis parses to
`t` and each change signal is absent or parses to exactly `t`, the evaluator
returns `false` — a tie does not trigger re-analysis. -/
theorem C5_equal_timestamps_do_not_trigger (env : DataEnv) (t : Int)
    (p : HttpResponse ProfileRow) (g : HttpResponse GithubRow)
    (hlast : lastAnalysisParses env t)
    (hpresp : env.profileResp = .ok p)
    (hpeq : signalAbsentOrEqual env (signalField ProfileRow.resume_uploaded_at p) t)
    (hgresp : env.githubResp = .ok g)
    (hgeq : signalAbsentOrEqual env (signalField GithubRow.last_sync_at g) t) :
    check_if_analysis_needed env = false := by
  rw [check_of_some (lastAnalysisStep_of_parses hlast), profileCheck_of_ok hpresp,
    signalStep_of_absentOrEqual hpeq]
  show githubCheck env t = false
  rw [githubCheck_of_ok hgresp, signalStep_of_absentOrEqual hgeq]
  rfl

/-- C5 witness: resume uploaded at exactly the last-analysis instant, sync
signal null: no re-analysis. -/
theorem C5_witness : check_if_analysis_needed envTie = false :=
  C5_equal_timestamps_do_not_trigger envTie 100 _ _
    ⟨_, _, _, "2024-01-01T00:00:00Z", rfl, rfl, rfl, rfl, rfl, rfl⟩
    rfl (Or.inr (Or.inr (Or.inr ⟨"2024-01-01T00:00:00Z", rfl, rfl⟩)))
    rfl (Or.inr (Or.inl rfl))

/-- A retrieval failure during `check_if_analysis_needed`: one of the three
requests raised, or a consulted timestamp string does not parse. -/
def retrievalFailure (env : DataEnv) : Prop :=
  env.analysisResp = .error () ∨ env.profileResp = .error () ∨ env.githubResp = .error () ∨
  (∃ r row rest s, env.analysisResp = .ok r ∧ r.status_code = 200 ∧ r.json = row :: rest ∧
    row.analyzed_at = JVal.str s ∧ s.isEmpty = false ∧ parseTs env s = none) ∨
  (∃ p row rest s, env.profileResp = .ok p ∧ p.status_code = 200 ∧ p.json = row :: rest ∧
    row.resume_uploaded_at = JVal.str s ∧ s.isEmpty = false ∧ parseTs env s = none) ∨
  (∃ g row rest s, env.githubResp = .ok g ∧ g.status_code = 200 ∧ g.json = row :: rest ∧
    row.last_sync_at = JVal.str s ∧ s.isEmpty = false ∧ parseTs env s = none)

/-- C6: every retrieval failure — an unreachable collaborator (raised request)
in any of the three lookups, or a malformed/unparseable timestamp in any
consulted field — makes the evaluator return `true` (fail open); being a total
Lean function, it returns rather than raising. -/
theorem C6_retrieval_failure_fails_open (env : DataEnv)
    (h : retrievalFailure env) : check_if_analysis_needed env = true := by
  rcases h with h | h | h | h | h | h
  · apply check_of_none
    simp only [lastAnalysisStep, h]
  · cases hls : lastAnalysisStep env with
    | none => exact check_of_none hls
    | some t => rw [check_of_some hls, profileCheck_of_error h]
  · cases hls : lastAnalysisStep env with
    | none => exact check_of_none hls
    | some t =>
      rw [check_of_some hls]
      cases hpr : env.profileResp with
      | error e => exact profileCheck_of_error hpr
      | ok p =>
        rw [profileCheck_of_ok hpr]
        cases hsig : signalStep env (signalField ProfileRow.resume_uploaded_at p) t with
        | raised => rfl
        | trigger => rfl
        | noTrigger =>
          show githubCheck env t = true
          exact githubCheck_of_error h
  · obtain ⟨r, row, rest, s, hresp, hst, hjson, hval, hne, hp⟩ := h
    apply check_of_none
    simp only [lastAnalysisStep, hresp]
    rw [lastAnalysisVal_of_str hst hjson hval]
    simp [parseLastAnalysis, hne, hp]
  · obtain ⟨p, row, rest, s, hpresp, hst, hjson, hval, hne, hpp⟩ := h
    have hf : signalField ProfileRow.resume_uploaded_at p = JVal.str s := by
      simp [signalField, hst, hjson, hval]
    cases hls : lastAnalysisStep env with
    | none => exact check_of_none hls
    | some t =>
      rw [check_of_some hls, profileCheck_of_ok hpresp, hf]
      simp [signalStep, hne, hpp, outcomeOr]
  · obtain ⟨g, row, rest, s, hgresp, hst, hjson, hval, hne, hgp⟩ := h
    have hf : signalField GithubRow.last_sync_at g = JVal.str s := by
      simp [signalField, hst, hjson, hval]
    cases hls : lastAnalysisStep env with
    | none => exact check_of_none hls
    | some t =>
      rw [check_of_some hls]
      cases hpr : env.profileResp with
      | error e => exact profileCheck_of_error hpr
      | ok p =>
        rw [profileCheck_of_ok hpr]
        cases hsig : signalStep env (signalField ProfileRow.resume_uploaded_at p) t with
        | raised => rfl
        | trigger => rfl
        | noTrigger =>
          show githubCheck env t = true
          rw [githubCheck_of_ok hgresp, hf]
          simp [signalStep, hne, hgp, outcomeOr]

/-- C6 witness: the last-analysis request raising yields `true`. -/
theorem C6_witness : check_if_analysis_needed envLookupRaises = true :=
  C6_retrieval_failure_fails_open envLookupRaises (Or.inl rfl)

/-- A change-signal lookup that completed without raising but yields nothing:
non-success status, empty result list, or a missing/null timestamp field. -/
def lookupNoSignal {ρ : Type} (field : ρ → JVal) (r : HttpResponse ρ) : Prop :=
  r.status_code ≠ 200 ∨ r.json = [] ∨
    ∃ row rest, r.json = row :: rest ∧
      (field row = JVal.missing ∨ field row = JVal.null)

/-- Helper: a no-signal lookup is observed as a missing or null value. -/
theorem signalField_of_noSignal {ρ : Type} {field : ρ → JVal} {r : HttpResponse ρ}
    (h : lookupNoSignal field r) :
    signalField field r = JVal.missing ∨ signalField field r = JVal.null := by
  rcases h with h | h | ⟨row, rest, hjson, hval⟩
  · right; simp [signalField, h]
  · right; simp [signalField, h]
  · by_cases hs : r.status_code = 200
    · rcases hval with hval | hval
      · left; simp [signalField, hs, hjson, hval]
      · right; simp [signalField, hs, hjson, hval]
    · right; simp [signalField, hs]

/-- C10: when the last analysis parses and the resume and github lookups each
return, without raising, a non-success status, an empty list, or a
missing/null timestamp, both signals count as absent and the evaluator
returns `false` — these conditions do not take the fail-open `true` path. -/
theorem C10_absent_signals_return_false (env : DataEnv) (t : Int)
    (p : HttpResponse ProfileRow) (g : HttpResponse GithubRow)
    (hlast : lastAnalysisParses env t)
    (hpresp : env.profileResp = .ok p)
    (hpn : lookupNoSignal ProfileRow.resume_uploaded_at p)
    (hgresp : env.githubResp = .ok g)
    (hgn : lookupNoSignal GithubRow.last_sync_at g) :
    check_if_analysis_needed env = false := by
  have h1 : signalStep env (signalField ProfileRow.resume_uploaded_at p) t
      = SignalOutcome.noTrigger := by
    rcases signalField_of_noSignal hpn with h | h <;> rw [h] <;> rfl
  have h2 : signalStep env (signalField GithubRow.last_sync_at g) t
      = SignalOutcome.noTrigger := by
    rcases signalField_of_noSignal hgn with h | h <;> rw [h] <;> rfl
  rw [check_of_some (lastAnalysisStep_of_parses hlast), profileCheck_of_ok hpresp, h1]
  show githubCheck env t = false
  rw [githubCheck_of_ok hgresp, h2]
  rfl

/-- C10 witness: resume lookup returns 404, github lookup returns an empty
list; the evaluator returns `false`. -/
theorem C10_witness : check_if_analysis_needed envNoSignals = false :=
  C10_absent_signals_return_false envNoSignals 100 _ _
    ⟨_, _, _, "2024-01-01T00:00:00Z", rfl, rfl, rfl, rfl, rfl, rfl⟩
    rfl (Or.inl (by decide))
    rfl (Or.inr (Or.inl rfl))
